import Mathlib

/-!
Verification of the ride lifecycle state machine and fare-estimation engine of the
itprologistics backend, as a shallow embedding of the route handlers in
routes/rides.js and routes/admin/rides.js over the Ride document model
(models/Ride.js), the DriverDetail model (models/AdminDriver.js), the Vehicle
model (models/Vehicle.js) and the User model (models/User.js).

Conventions of the embedding:
- Numbers that JavaScript stores as IEEE doubles are modelled as exact rationals;
  Math.round is modelled as the function jsRound below (round half toward positive
  infinity), and Number.prototype.toFixed(1) composed with parseFloat as toFixed1
  (exact for the non-negative values that arise here).
- Dates are modelled as an abstract tick (a natural number) supplied by the caller.
- Mongo document ids are modelled as natural numbers.
- A handler that responds with an error status is modelled as Except.error carrying
  the error class and the literal response message; a success response that writes
  the document is modelled as Except.ok carrying the updated document(s). An error
  response performs no write, so the stored state is unchanged on the error path.
-/

namespace ItproRides

/-- Math.round of JavaScript on an exact rational: nearest integer, half rounded up. -/
def jsRound (x : ℚ) : ℤ := ⌊x + 1/2⌋

/-- parseFloat(x.toFixed(1)) of JavaScript on an exact non-negative rational:
round to one decimal place, half up. -/
def toFixed1 (x : ℚ) : ℚ := (jsRound (x * 10) : ℚ) / 10

/-- parseFloat(x.toFixed(2)): round to two decimal places, half up. -/
def toFixed2 (x : ℚ) : ℚ := (jsRound (x * 100) : ℚ) / 100

/-- The status enumeration of the Ride schema in models/Ride.js. -/
inductive RideStatus where
  | pending
  | searching
  | awaiting_driver_confirmation
  | accepted
  | picked_up
  | in_progress
  | completed
  | cancelled
deriving DecidableEq

/-- The string stored for each ride status (the enum values of the schema). -/
def statusToString : RideStatus → String
  | .pending => "pending"
  | .searching => "searching"
  | .awaiting_driver_confirmation => "awaiting_driver_confirmation"
  | .accepted => "accepted"
  | .picked_up => "picked_up"
  | .in_progress => "in_progress"
  | .completed => "completed"
  | .cancelled => "cancelled"

/-- The validStatuses array checked by both status-update handlers
(routes/rides.js line 521 and routes/admin/rides.js line 390). -/
def validStatuses : List String :=
  ["pending", "searching", "awaiting_driver_confirmation", "accepted",
   "picked_up", "in_progress", "completed", "cancelled"]

/-- Decode a request status string into the enumeration; none exactly when the
string is not one of the eight validStatuses entries. -/
def parseStatus (s : String) : Option RideStatus :=
  if s = "pending" then some .pending
  else if s = "searching" then some .searching
  else if s = "awaiting_driver_confirmation" then some .awaiting_driver_confirmation
  else if s = "accepted" then some .accepted
  else if s = "picked_up" then some .picked_up
  else if s = "in_progress" then some .in_progress
  else if s = "completed" then some .completed
  else if s = "cancelled" then some .cancelled
  else none

/-- The rideType enumeration of the Ride schema and the keys of PRICING_CONFIG. -/
inductive RideType where
  | bicycle
  | motorcycle
  | car
deriving DecidableEq

/-- Decode a request rideType string; none exactly when PRICING_CONFIG has no such key. -/
def parseRideType (s : String) : Option RideType :=
  if s = "bicycle" then some .bicycle
  else if s = "motorcycle" then some .motorcycle
  else if s = "car" then some .car
  else none

/-- The paymentStatus enumeration of the Ride schema. -/
inductive PaymentStatus where
  | pending
  | completed
  | failed
  | refunded
deriving DecidableEq

/-- One tier of the PRICING_CONFIG table of routes/rides.js (lines 11 to 30). -/
structure PricingTier where
  baseFare : ℤ
  perKm : ℤ
  perMinute : ℤ
  serviceFeePercent : ℤ
deriving DecidableEq

/-- PRICING_CONFIG of routes/rides.js: fixed tariff constants in Naira. -/
def PRICING_CONFIG : RideType → PricingTier
  | .bicycle => ⟨200, 50, 10, 5⟩
  | .motorcycle => ⟨300, 100, 15, 8⟩
  | .car => ⟨500, 150, 20, 10⟩

/-- The estimate object built by POST /estimate (routes/rides.js lines 60 to 102),
as a function of the computed distance (the handler feeds it the haversine
distance of the request coordinates). -/
structure FareEstimate where
  distance : ℚ
  duration : ℤ
  minDuration : ℤ
  maxDuration : ℤ
  baseFare : ℤ
  distanceFare : ℤ
  timeFare : ℤ
  serviceFee : ℤ
  totalFare : ℤ
deriving DecidableEq

/-- The fare computation of POST /estimate for a given distance and recognized
ride type, transcribed from routes/rides.js lines 62 to 101. -/
def estimateFare (distance : ℚ) (t : RideType) : FareEstimate :=
  let estimatedDuration := jsRound (distance / 30 * 60)
  let minDuration := max 5 (estimatedDuration - 5)
  let maxDuration := estimatedDuration + 5
  let config := PRICING_CONFIG t
  let baseFare := config.baseFare
  let distanceFare := jsRound (distance * (config.perKm : ℚ))
  let timeFare := jsRound ((estimatedDuration : ℚ) * (config.perMinute : ℚ))
  let subtotal := baseFare + distanceFare + timeFare
  let serviceFee := jsRound ((subtotal : ℚ) * ((config.serviceFeePercent : ℚ) / 100))
  let totalFare := jsRound ((subtotal : ℚ) + (serviceFee : ℚ))
  { distance := toFixed2 distance
    duration := estimatedDuration
    minDuration := minDuration
    maxDuration := maxDuration
    baseFare := baseFare
    distanceFare := distanceFare
    timeFare := timeFare
    serviceFee := serviceFee
    totalFare := totalFare }

/-- The five fare components named by the reference computation of the
specification (section 4.1, step 3). -/
structure SpecFare where
  distanceFare : ℤ
  timeFare : ℤ
  subtotal : ℤ
  serviceFee : ℤ
  totalFare : ℤ
deriving DecidableEq

/-- Modelled from the wording of the specification, for comparison with the
source handler: the tariff table of section 4.1 and the formulas
distanceFare = round(distance_km * perKmRate),
timeFare = round(duration_min * perMinuteRate),
subtotal = baseFare + distanceFare + timeFare,
serviceFee = round(subtotal * serviceFeePercent / 100),
totalFare = round(subtotal + serviceFee),
with duration_min = round(distance_km / 30 * 60). -/
def referenceFare (distance_km : ℚ) (t : RideType) : SpecFare :=
  let table : RideType → ℤ × ℤ × ℤ × ℤ :=
    fun c => match c with
      | .bicycle => (200, 50, 10, 5)
      | .motorcycle => (300, 100, 15, 8)
      | .car => (500, 150, 20, 10)
  let baseFare := (table t).1
  let perKmRate := (table t).2.1
  let perMinuteRate := (table t).2.2.1
  let serviceFeePercent := (table t).2.2.2
  let duration_min := jsRound (distance_km / 30 * 60)
  let distanceFare := jsRound (distance_km * (perKmRate : ℚ))
  let timeFare := jsRound ((duration_min : ℚ) * (perMinuteRate : ℚ))
  let subtotal := baseFare + distanceFare + timeFare
  let serviceFee := jsRound ((subtotal : ℚ) * (serviceFeePercent : ℚ) / 100)
  let totalFare := jsRound ((subtotal : ℚ) + (serviceFee : ℚ))
  { distanceFare := distanceFare
    timeFare := timeFare
    subtotal := subtotal
    serviceFee := serviceFee
    totalFare := totalFare }

/-- Claim C2: for every distance and recognized category, the estimate handler
computes exactly the reference fare of the specification (distanceFare, timeFare,
subtotal, serviceFee, totalFare, with the fixed tariff table), and in particular
for category car at distance 10 km it yields distanceFare 1500, timeFare 400,
subtotal 2400, serviceFee 240 and totalFare 2640. -/
theorem estimate_matches_reference :
    (∀ (d : ℚ) (t : RideType),
      (estimateFare d t).distanceFare = (referenceFare d t).distanceFare ∧
      (estimateFare d t).timeFare = (referenceFare d t).timeFare ∧
      (estimateFare d t).baseFare + (estimateFare d t).distanceFare +
        (estimateFare d t).timeFare = (referenceFare d t).subtotal ∧
      (estimateFare d t).serviceFee = (referenceFare d t).serviceFee ∧
      (estimateFare d t).totalFare = (referenceFare d t).totalFare) ∧
    (estimateFare 10 .car).distanceFare = 1500 ∧
    (estimateFare 10 .car).timeFare = 400 ∧
    (estimateFare 10 .car).duration = 20 ∧
    (estimateFare 10 .car).baseFare = 500 ∧
    (estimateFare 10 .car).serviceFee = 240 ∧
    (estimateFare 10 .car).totalFare = 2640 := by
  constructor
  · intro d t
    cases t <;>
      refine ⟨rfl, rfl, rfl, ?_, ?_⟩ <;>
      · simp only [estimateFare, referenceFare, PRICING_CONFIG]
        rw [mul_div_assoc]
  · refine ⟨?_, ?_, ?_, ?_, ?_, ?_⟩ <;>
      norm_num [estimateFare, jsRound, PRICING_CONFIG]

/-- The error classes of the response taxonomy, each carrying the literal
message string of the handler response. A validationError responds 400 for
missing or malformed input, notFoundError 404, authorizationError 403,
conflictError 400 for an illegal state (state-conflict and already-rated
rejections in the source respond 400 with the quoted message), and
internalError 500 for an exception caught by the handler. -/
inductive ApiError where
  | validationError (msg : String)
  | notFoundError (msg : String)
  | authorizationError (msg : String)
  | conflictError (msg : String)
  | internalError (msg : String)
deriving DecidableEq

/-- The Ride document of models/Ride.js, restricted to schema fields. Dates are
ticks (Option Nat, none for the schema default null). The schema declares the
timestamp paths acceptedAt, arrivedAt, startedAt, completedAt and cancelledAt;
it declares no pickedUpAt path, so the assignment to ride.pickedUpAt in the
status-update handlers targets an undeclared path that save() drops under the
default strict mode, and no such field is modelled here. -/
structure Ride where
  id : Nat
  userId : Nat
  driverId : Option Nat := none
  status : RideStatus := .pending
  pickupAddress : String := ""
  pickupLat : ℚ := 0
  pickupLng : ℚ := 0
  destinationAddress : String := ""
  destLat : ℚ := 0
  destLng : ℚ := 0
  rideType : RideType := .car
  distance : ℚ := 0
  estimatedDuration : ℤ := 0
  baseFare : ℚ := 0
  distanceFare : ℚ := 0
  totalFare : ℚ := 0
  paymentMethod : String := "cash"
  paymentStatus : PaymentStatus := .pending
  instructions : String := ""
  phoneNumber : String := ""
  riderRating : Option ℚ := none
  feedbackRider : Option String := none
  acceptedAt : Option Nat := none
  arrivedAt : Option Nat := none
  startedAt : Option Nat := none
  completedAt : Option Nat := none
  cancelledAt : Option Nat := none
deriving DecidableEq

/-- The DriverDetail document of models/AdminDriver.js, restricted to the fields
the ride routes read. The rider-facing available-drivers query additionally
filters on status and isVerified paths, which the schema does not declare; they
are modelled as document fields here because the query addresses them. -/
structure DriverDetail where
  id : Nat
  userId : Nat
  vehicleId : Option Nat := none
  driverRating : ℚ := 0
  totalTrips : ℤ := 0
  status : String := ""
  isVerified : Bool := false
deriving DecidableEq

/-- The role field of the User document of models/User.js. -/
inductive Role where
  | user
  | driver
  | admin
deriving DecidableEq

/-- The User document, restricted to the fields the ride routes read. -/
structure User where
  id : Nat
  role : Role
  isActive : Bool := true
deriving DecidableEq

/-- The Vehicle document of models/Vehicle.js, restricted to the fields the
ride routes read; vehicleType ranges over the schema enum strings
sedan, suv, truck, van, motorcycle, bus, other. -/
structure Vehicle where
  id : Nat
  vehicleType : String
deriving DecidableEq

/-- The shared mutation block of both status-update handlers
(routes/rides.js lines 560 to 572 and routes/admin/rides.js lines 408 to 420):
set the status to the requested value, and stamp startedAt or completedAt with
the current time when the requested value is in_progress or completed
(completion also resets paymentStatus to pending). For picked_up the handlers
assign ride.pickedUpAt, but the Ride schema declares no such path (it declares
arrivedAt, which no handler writes), so under the default strict mode save()
discards that assignment and the stored document gains only the new status.
No other field is touched and no current-status check is made. -/
def applyStatusUpdate (ride : Ride) (st : RideStatus) (now : Nat) : Ride :=
  let r := { ride with status := st }
  if st = .picked_up then r
  else if st = .in_progress then { r with startedAt := some now }
  else if st = .completed then { r with completedAt := some now, paymentStatus := .pending }
  else r

/-- PATCH /rides/:id/status (routes/rides.js lines 509 to 597), applied to the
ride found by id. The body status must be present and a member of
validStatuses (parseStatus succeeds exactly on those strings); the requester
must be the rider, or the driver whose DriverDetail record (looked up by the
requester user id and passed here as requesterDetail) is the driver of the ride. -/
def patchRideStatus (ride : Ride) (requesterId : Nat) (requesterDetail : Option DriverDetail)
    (body : Option String) (now : Nat) : Except ApiError Ride :=
  match body with
  | none => .error (ApiError.validationError ("Status is required"))
  | some s =>
    match parseStatus s with
    | none => .error (ApiError.validationError ("Invalid status"))
    | some st =>
      let isRider : Bool := ride.userId == requesterId
      let isDriver : Bool := match requesterDetail, ride.driverId with
        | some d, some rd => rd == d.id
        | _, _ => false
      if !isRider && !isDriver then
        .error (ApiError.authorizationError ("Unauthorized to update this ride"))
      else
        .ok (applyStatusUpdate ride st now)

/-- PATCH /admin/rides/:rideId/status (routes/admin/rides.js lines 377 to 465),
applied to the ride found by id; the admin role is established by middleware.
Identical to the rider/driver handler except that no rider/driver
authorization check is made. -/
def adminPatchRideStatus (ride : Ride) (body : Option String) (now : Nat) :
    Except ApiError Ride :=
  match body with
  | none => .error (ApiError.validationError ("Status is required"))
  | some s =>
    match parseStatus s with
    | none => .error (ApiError.validationError ("Invalid status"))
    | some st => .ok (applyStatusUpdate ride st now)

/-- POST /rides/:id/cancel (routes/rides.js lines 310 to 347), applied to the
ride found by id and owning rider: rejected when the status is completed or
cancelled, otherwise the status becomes cancelled and cancelledAt is stamped. -/
def cancelRide (ride : Ride) (now : Nat) : Except ApiError Ride :=
  if ride.status = .completed ∨ ride.status = .cancelled then
    .error (ApiError.conflictError ("Ride is already " ++ statusToString ride.status))
  else
    .ok { ride with status := .cancelled, cancelledAt := some now }

/-- PUT /admin/rides/:rideId/decline (routes/admin/rides.js lines 263 to 305),
applied to the ride found by id: same guard and mutation as the rider cancel,
with the admin-side message. -/
def adminDeclineRide (ride : Ride) (now : Nat) : Except ApiError Ride :=
  if ride.status = .completed ∨ ride.status = .cancelled then
    .error (ApiError.conflictError
      ("Ride cannot be cancelled from " ++ statusToString ride.status ++ " status"))
  else
    .ok { ride with status := .cancelled, cancelledAt := some now }

/-- A completed ride owned by user 9, for concrete evaluations. -/
def exCompletedRide : Ride :=
  { id := 1, userId := 9, driverId := some 4, status := .completed, completedAt := some 50 }

/-- An in-progress ride with startedAt already stamped at tick 5. -/
def exInProgressRide : Ride :=
  { id := 2, userId := 9, driverId := some 4, status := .in_progress, startedAt := some 5 }

/-- A fresh pending ride owned by user 9. -/
def exPendingRide : Ride := { id := 3, userId := 9 }

/-- Claim C1 counterexample: the rider-facing status-update handler, invoked by
the owning rider on a completed ride with requested status pending, succeeds
and changes the status — a transition out of a terminal state, contradicting
the claim that the section 4.2 transition table is enforced. -/
theorem patch_escapes_terminal_counterexample :
    patchRideStatus exCompletedRide 9 none (some ("pending")) 100 =
      Except.ok { exCompletedRide with status := RideStatus.pending } ∧
    ({ exCompletedRide with status := RideStatus.pending } : Ride).status ≠
      exCompletedRide.status := by
  exact ⟨rfl, by decide⟩

/-- Claim C1 as amended: both status-update handlers check only that the
requested status is one of the eight valid strings (and, on the rider/driver
endpoint, that the requester is the rider or assigned driver); they then set
the status of the ride to the requested value unconditionally, regardless of the
current status — including out of completed and cancelled. -/
theorem patch_sets_requested_status (ride : Ride) (s : String) (st : RideStatus)
    (requesterId : Nat) (requesterDetail : Option DriverDetail) (now : Nat)
    (hparse : parseStatus s = some st)
    (hauth : ride.userId = requesterId) :
    patchRideStatus ride requesterId requesterDetail (some s) now =
      Except.ok (applyStatusUpdate ride st now) ∧
    adminPatchRideStatus ride (some s) now =
      Except.ok (applyStatusUpdate ride st now) ∧
    (applyStatusUpdate ride st now).status = st := by
  refine ⟨?_, ?_, ?_⟩
  · simp [patchRideStatus, hparse, hauth]
  · simp [adminPatchRideStatus, hparse]
  · cases st <;> simp [applyStatusUpdate]

/-- Witness for the amended claim C1 at the concrete completed ride. -/
theorem patch_sets_requested_status_witness :
    parseStatus ("pending") = some RideStatus.pending ∧
    exCompletedRide.userId = 9 ∧
    (patchRideStatus exCompletedRide 9 none (some ("pending")) 100 =
      Except.ok (applyStatusUpdate exCompletedRide RideStatus.pending 100) ∧
    adminPatchRideStatus exCompletedRide (some ("pending")) 100 =
      Except.ok (applyStatusUpdate exCompletedRide RideStatus.pending 100) ∧
    (applyStatusUpdate exCompletedRide RideStatus.pending 100).status =
      RideStatus.pending) :=
  ⟨rfl, rfl,
    patch_sets_requested_status exCompletedRide ("pending") RideStatus.pending 9 none 100 rfl rfl⟩

/-- Claim C6 counterexample: re-entering in_progress through the administrator
status patch overwrites an already-set startedAt timestamp (tick 5 becomes
tick 10), contradicting the claim that a set timestamp is never overwritten. -/
theorem restamp_overwrites_counterexample :
    adminPatchRideStatus exInProgressRide (some ("in_progress")) 10 =
      Except.ok { exInProgressRide with startedAt := some 10 } ∧
    some 10 ≠ exInProgressRide.startedAt := by
  exact ⟨rfl, by decide⟩

/-- Claim C6 as amended: every status update that sets in_progress or completed
stamps startedAt or completedAt respectively with the current time
unconditionally — overwriting any earlier value — while a picked_up update
persists no timestamp at all (the handler assigns an undeclared schema path
that save() drops), and acceptedAt, arrivedAt and cancelledAt are never
modified by the status-update handlers. -/
theorem status_update_timestamp_overwrite (ride : Ride) (s : String) (st : RideStatus)
    (now : Nat) (hparse : parseStatus s = some st) :
    adminPatchRideStatus ride (some s) now = Except.ok (applyStatusUpdate ride st now) ∧
    (applyStatusUpdate ride st now).startedAt =
      (if st = RideStatus.in_progress then some now else ride.startedAt) ∧
    (applyStatusUpdate ride st now).completedAt =
      (if st = RideStatus.completed then some now else ride.completedAt) ∧
    (applyStatusUpdate ride st now).acceptedAt = ride.acceptedAt ∧
    (applyStatusUpdate ride st now).arrivedAt = ride.arrivedAt ∧
    (applyStatusUpdate ride st now).cancelledAt = ride.cancelledAt := by
  refine ⟨by simp [adminPatchRideStatus, hparse], ?_⟩
  cases st <;> simp [applyStatusUpdate]

/-- Witness for the amended claim C6 at the concrete in-progress ride. -/
theorem status_update_timestamp_overwrite_witness :
    parseStatus ("in_progress") = some RideStatus.in_progress ∧
    (applyStatusUpdate exInProgressRide RideStatus.in_progress 10).startedAt =
      (if RideStatus.in_progress = RideStatus.in_progress then some 10
       else exInProgressRide.startedAt) :=
  ⟨rfl,
    (status_update_timestamp_overwrite exInProgressRide ("in_progress")
      RideStatus.in_progress 10 rfl).2.1⟩

/-- Claim C5: from any of the six non-terminal statuses, both the rider cancel
handler and the administrator decline handler succeed, set cancelledAt and move
the ride to cancelled; from completed or cancelled, both fail with a
state-conflict error whose message names the current terminal status, and the
ride is unchanged (the error path performs no write). -/
theorem cancel_guard (ride : Ride) (now : Nat) :
    (ride.status ≠ RideStatus.completed ∧ ride.status ≠ RideStatus.cancelled →
      cancelRide ride now =
        Except.ok { ride with status := RideStatus.cancelled, cancelledAt := some now } ∧
      adminDeclineRide ride now =
        Except.ok { ride with status := RideStatus.cancelled, cancelledAt := some now }) ∧
    (ride.status = RideStatus.completed ∨ ride.status = RideStatus.cancelled →
      cancelRide ride now =
        Except.error (ApiError.conflictError
          ("Ride is already " ++ statusToString ride.status)) ∧
      adminDeclineRide ride now =
        Except.error (ApiError.conflictError
          ("Ride cannot be cancelled from " ++ statusToString ride.status ++ " status"))) := by
  constructor
  · intro h
    have hc : ¬(ride.status = RideStatus.completed ∨ ride.status = RideStatus.cancelled) := by
      tauto
    exact ⟨by simp [cancelRide, hc], by simp [adminDeclineRide, hc]⟩
  · intro h
    exact ⟨by simp [cancelRide, h], by simp [adminDeclineRide, h]⟩

/-- Witness for claim C5: a pending ride cancels successfully, a completed ride
is rejected with the message naming its terminal status. -/
theorem cancel_guard_witness :
    (exPendingRide.status ≠ RideStatus.completed ∧
      exPendingRide.status ≠ RideStatus.cancelled) ∧
    cancelRide exPendingRide 7 =
      Except.ok { exPendingRide with status := RideStatus.cancelled, cancelledAt := some 7 } ∧
    (exCompletedRide.status = RideStatus.completed ∨
      exCompletedRide.status = RideStatus.cancelled) ∧
    cancelRide exCompletedRide 7 =
      Except.error (ApiError.conflictError
        ("Ride is already " ++ statusToString exCompletedRide.status)) :=
  ⟨by decide,
    ((cancel_guard exPendingRide 7).1 (by decide)).1,
    Or.inl rfl,
    ((cancel_guard exCompletedRide 7).2 (Or.inl rfl)).1⟩

/-- The driver-reference resolution of PUT /admin/rides/:rideId/assign
(routes/admin/rides.js lines 132 to 146): first look the supplied reference up
as a DriverDetail id; when that fails, look it up as the id of the owning user. The
source keeps the supplied reference as the id to store when the first lookup
succeeds, which equals the id of the resolved record itself because that lookup matched
on the id field; both branches therefore store the profile id of the result. -/
def resolveDriverDetail (drivers : List DriverDetail) (reqId : Nat) : Option DriverDetail :=
  match drivers.find? (fun d => d.id == reqId) with
  | some d => some d
  | none => drivers.find? (fun d => d.userId == reqId)

/-- PUT /admin/rides/:rideId/assign (routes/admin/rides.js lines 101 to 208),
applied to the ride found by id: requires a driver reference in the body,
requires the ride to be pending, resolves the reference to a DriverDetail,
verifies the underlying user has the driver role, then sets driverId to the
profile id, moves the status to awaiting_driver_confirmation and stamps
acceptedAt. -/
def assignDriver (ride : Ride) (driverRef : Option Nat) (drivers : List DriverDetail)
    (users : List User) (now : Nat) : Except ApiError Ride :=
  match driverRef with
  | none => .error (ApiError.validationError ("Driver ID is required"))
  | some reqId =>
    if ride.status ≠ RideStatus.pending then
      .error (ApiError.conflictError ("Ride must be in pending state to assign driver"))
    else
      match resolveDriverDetail drivers reqId with
      | none => .error (ApiError.notFoundError ("Driver not found"))
      | some detail =>
        match users.find? (fun u => u.id == detail.userId) with
        | none => .error (ApiError.notFoundError ("Driver not found or invalid"))
        | some driver =>
          if driver.role ≠ Role.driver then
            .error (ApiError.notFoundError ("Driver not found or invalid"))
          else
            .ok { ride with driverId := some detail.id,
                            status := RideStatus.awaiting_driver_confirmation,
                            acceptedAt := some now }

/-- Claim C3: assignment fails with a state-conflict error from every
non-pending status (the error path writes nothing, so the ride is unchanged);
the driver reference resolves through the profile id or the id of the owning user;
and from pending, with the reference resolved and the underlying user holding
the driver role, the ride gets the resolved profile id as driverId, status
awaiting_driver_confirmation and a stamped acceptedAt. -/
theorem assign_requires_pending (ride : Ride) (reqId : Nat) (drivers : List DriverDetail)
    (users : List User) (now : Nat) :
    (ride.status ≠ RideStatus.pending →
      assignDriver ride (some reqId) drivers users now =
        Except.error (ApiError.conflictError
          ("Ride must be in pending state to assign driver"))) ∧
    (∀ d, resolveDriverDetail drivers reqId = some d → d.id = reqId ∨ d.userId = reqId) ∧
    (ride.status = RideStatus.pending →
      ∀ d u, resolveDriverDetail drivers reqId = some d →
        users.find? (fun x => x.id == d.userId) = some u →
        u.role = Role.driver →
        assignDriver ride (some reqId) drivers users now =
          Except.ok { ride with driverId := some d.id,
                                status := RideStatus.awaiting_driver_confirmation,
                                acceptedAt := some now }) := by
  refine ⟨?_, ?_, ?_⟩
  · intro h
    simp [assignDriver, h]
  · intro d hd
    unfold resolveDriverDetail at hd
    cases hfind : drivers.find? (fun x => x.id == reqId) with
    | some x =>
      rw [hfind] at hd
      have := List.find?_some hfind
      simp at this
      exact Or.inl (by simpa [← Option.some_inj.mp hd] using this)
    | none =>
      rw [hfind] at hd
      have := List.find?_some hd
      simp at this
      exact Or.inr this
  · intro hp d u hd hu hrole
    simp [assignDriver, hp, hd, hu, hrole]

/-- Witness for claim C3: a concrete non-pending ride is rejected with the
state-conflict error, and a concrete pending ride is assigned driver profile 5
supplied by its owning user id 7. -/
theorem assign_requires_pending_witness :
    exCompletedRide.status ≠ RideStatus.pending ∧
    assignDriver exCompletedRide (some 7) [] [] 11 =
      Except.error (ApiError.conflictError
        ("Ride must be in pending state to assign driver")) ∧
    exPendingRide.status = RideStatus.pending ∧
    resolveDriverDetail [{ id := 5, userId := 7 }] 7 = some { id := 5, userId := 7 } ∧
    assignDriver exPendingRide (some 7) [{ id := 5, userId := 7 }]
        [{ id := 7, role := Role.driver }] 11 =
      Except.ok { exPendingRide with driverId := some 5,
                                     status := RideStatus.awaiting_driver_confirmation,
                                     acceptedAt := some 11 } :=
  ⟨by decide,
    (assign_requires_pending exCompletedRide 7 [] [] 11).1 (by decide),
    rfl, rfl,
    (assign_requires_pending exPendingRide 7 [{ id := 5, userId := 7 }]
        [{ id := 7, role := Role.driver }] 11).2.2 rfl
      { id := 5, userId := 7 } { id := 7, role := Role.driver } rfl rfl rfl⟩

/-- The averageRating reduction of POST /rides/:id/rate (routes/rides.js
line 647): the sum of riderRating over the listed rides divided by their
count; a null riderRating is coerced to zero by the addition, as in the
source reduce. -/
def meanRiderRating (l : List Ride) : ℚ :=
  (l.map (fun r => r.riderRating.getD 0)).sum / (l.length : ℚ)

/-- The ride mutation of POST /rides/:id/rate: store the rating and, when
feedback text is supplied, merge it into the rider slot of the feedback object
(routes/rides.js lines 633 to 636). -/
def applyRating (ride : Ride) (rating : ℚ) (feedback : Option String) : Ride :=
  { ride with riderRating := some rating,
              feedbackRider := match feedback with
                | some f => some f
                | none => ride.feedbackRider }

/-- POST /rides/:id/rate (routes/rides.js lines 602 to 665) over the stored
collections: reject a rating outside 1..5 (the falsy-zero guard of the source
is subsumed by the lower bound for numbers); find the completed ride owned by
the caller, else 404; reject when riderRating is already set; otherwise save
the rating (and optional feedback), and when the ride has a driver recompute
an average and persist it on the DriverDetail. The aggregation query selects
the rides of the driver with riderRating exists true — but the Ride schema
defaults riderRating to null, a null-valued field exists in Mongo, and every
ride this API creates carries the field, so the query matches every stored
ride of the driver, rated or not; the reduce then coerces each null rating
to zero, so the program divides the sum of set ratings by the count of all of
the rides of the driver. Returns the updated collections. -/
def rateRide (rides : List Ride) (drivers : List DriverDetail) (rideId requesterId : Nat)
    (rating : ℚ) (feedback : Option String) :
    Except ApiError (List Ride × List DriverDetail) :=
  if rating < 1 ∨ 5 < rating then
    .error (ApiError.validationError ("Rating must be between 1 and 5"))
  else
    match rides.find? (fun r =>
        decide (r.id = rideId ∧ r.userId = requesterId ∧ r.status = RideStatus.completed)) with
    | none => .error (ApiError.notFoundError ("Completed ride not found"))
    | some ride =>
      if ride.riderRating ≠ none then
        .error (ApiError.conflictError ("Ride already rated"))
      else
        let savedRides := rides.map (fun r =>
          if r.id = ride.id then applyRating ride rating feedback else r)
        match ride.driverId with
        | none => .ok (savedRides, drivers)
        | some did =>
          let driverRides := savedRides.filter (fun r => decide (r.driverId = some did))
          let averageRating := meanRiderRating driverRides
          .ok (savedRides, drivers.map (fun d =>
            if d.id = did then { d with driverRating := toFixed1 averageRating } else d))

/-- A driver profile used by the concrete rating scenario. -/
def exDriver : DriverDetail := { id := 4, userId := 7, driverRating := 9/2 }

/-- A completed ride of driver 4 already rated 4. -/
def exRideA : Ride :=
  { id := 11, userId := 9, driverId := some 4, status := .completed, riderRating := some 4 }

/-- A completed ride of driver 4 already rated 5. -/
def exRideB : Ride :=
  { id := 12, userId := 9, driverId := some 4, status := .completed, riderRating := some 5 }

/-- A completed, not yet rated ride of driver 4, owned by user 9. -/
def exRideC : Ride :=
  { id := 13, userId := 9, driverId := some 4, status := .completed }

/-- A ride of driver 4 that is still unrated and stays unrated, owned by
another user. -/
def exRideD : Ride :=
  { id := 14, userId := 2, driverId := some 4, status := .accepted }

/-- Claim C4 counterexample: with prior ratings 4 and 5, a new rating 3, and
one further assigned-but-unrated ride of the same driver, the program stores
driverRating 3 — the aggregation query matches the unrated ride too, because
the schema default makes riderRating exist as null on every ride, and its null
counts as zero — while the claim prescribes the mean over the rides with a
rating set, which rounds to 4. -/
theorem rate_mean_over_rated_counterexample :
    rateRide [exRideA, exRideB, exRideC, exRideD] [exDriver] 13 9 3 none =
      Except.ok ([exRideA, exRideB, { exRideC with riderRating := some 3 }, exRideD],
        [{ exDriver with driverRating := 3 }]) ∧
    toFixed1 (meanRiderRating ([exRideA, exRideB, { exRideC with riderRating := some 3 },
      exRideD].filter (fun r => decide (r.driverId = some 4 ∧ r.riderRating ≠ none)))) = 4 ∧
    (3 : ℚ) ≠ 4 := by
  refine ⟨?_, ?_, by norm_num⟩
  · have h1 : rateRide [exRideA, exRideB, exRideC, exRideD] [exDriver] 13 9 3 none =
        Except.ok ([exRideA, exRideB, { exRideC with riderRating := some 3 }, exRideD],
          [{ exDriver with driverRating := toFixed1 (meanRiderRating
            [exRideA, exRideB, { exRideC with riderRating := some 3 }, exRideD]) }]) := rfl
    have h2 : meanRiderRating
        [exRideA, exRideB, { exRideC with riderRating := some 3 }, exRideD] = 3 := by
      norm_num [meanRiderRating, exRideA, exRideB, exRideC, exRideD]
    have h3 : toFixed1 (3 : ℚ) = 3 := by
      norm_num [toFixed1, jsRound]
    rw [h1, h2, h3]
  · have h4 : ([exRideA, exRideB, { exRideC with riderRating := some 3 },
        exRideD].filter (fun r => decide (r.driverId = some 4 ∧ r.riderRating ≠ none))) =
        [exRideA, exRideB, { exRideC with riderRating := some 3 }] := rfl
    have h5 : meanRiderRating
        [exRideA, exRideB, { exRideC with riderRating := some 3 }] = 4 := by
      norm_num [meanRiderRating, exRideA, exRideB, exRideC]
    rw [h4, h5]
    norm_num [toFixed1, jsRound]

/-- Claim C4 as amended: a second rating attempt on an already-rated ride fails
with the conflict error (the error path writes nothing); rating a driverless
completed ride records the rating and leaves every driver profile unchanged;
rating a completed ride with a driver records the rating and sets the
driverRating of that driver to the one-decimal rounding of the sum of the set
riderRating values divided by the count of all of the rides of the driver —
the aggregation query matches unrated rides too (their null riderRating exists
and is coerced to zero), so this equals the mean over rated rides only when
every ride of the driver is rated. In the concrete scenario where the rides of
the driver are exactly the rated ones 4 and 5 plus the newly rated 3, the
stored driverRating is 4. -/
theorem rate_ride_spec :
    (∀ (rides : List Ride) (drivers : List DriverDetail) (rideId requesterId : Nat)
        (rating : ℚ) (feedback : Option String) (ride : Ride),
      1 ≤ rating → rating ≤ 5 →
      rides.find? (fun r =>
          decide (r.id = rideId ∧ r.userId = requesterId ∧
            r.status = RideStatus.completed)) = some ride →
      ride.riderRating ≠ none →
      rateRide rides drivers rideId requesterId rating feedback =
        Except.error (ApiError.conflictError ("Ride already rated"))) ∧
    (∀ (rides : List Ride) (drivers : List DriverDetail) (rideId requesterId : Nat)
        (rating : ℚ) (feedback : Option String) (ride : Ride),
      1 ≤ rating → rating ≤ 5 →
      rides.find? (fun r =>
          decide (r.id = rideId ∧ r.userId = requesterId ∧
            r.status = RideStatus.completed)) = some ride →
      ride.riderRating = none →
      ride.driverId = none →
      rateRide rides drivers rideId requesterId rating feedback =
        Except.ok (rides.map (fun r =>
          if r.id = ride.id then applyRating ride rating feedback else r), drivers)) ∧
    (∀ (rides : List Ride) (drivers : List DriverDetail) (rideId requesterId did : Nat)
        (rating : ℚ) (feedback : Option String) (ride : Ride),
      1 ≤ rating → rating ≤ 5 →
      rides.find? (fun r =>
          decide (r.id = rideId ∧ r.userId = requesterId ∧
            r.status = RideStatus.completed)) = some ride →
      ride.riderRating = none →
      ride.driverId = some did →
      rateRide rides drivers rideId requesterId rating feedback =
        (let savedRides := rides.map (fun r =>
          if r.id = ride.id then applyRating ride rating feedback else r)
        let allOfDriver := savedRides.filter (fun r => decide (r.driverId = some did))
        Except.ok (savedRides, drivers.map (fun d =>
          if d.id = did then { d with driverRating := toFixed1 (meanRiderRating allOfDriver) }
          else d)))) ∧
    rateRide [exRideA, exRideB, exRideC] [exDriver] 13 9 3 none =
      Except.ok ([exRideA, exRideB, { exRideC with riderRating := some 3 }],
        [{ exDriver with driverRating := 4 }]) := by
  refine ⟨?_, ?_, ?_, ?_⟩
  · intro rides drivers rideId requesterId rating feedback ride h1 h5 hfind hrated
    have hnv : ¬(rating < 1 ∨ 5 < rating) := by
      push_neg
      exact ⟨by linarith, by linarith⟩
    unfold rateRide
    rw [if_neg hnv, hfind]
    simp [hrated]
  · intro rides drivers rideId requesterId rating feedback ride h1 h5 hfind hunrated hnodrv
    have hnv : ¬(rating < 1 ∨ 5 < rating) := by
      push_neg
      exact ⟨by linarith, by linarith⟩
    unfold rateRide
    rw [if_neg hnv, hfind]
    simp [hunrated, hnodrv]
  · intro rides drivers rideId requesterId did rating feedback ride h1 h5 hfind hunrated hdrv
    have hnv : ¬(rating < 1 ∨ 5 < rating) := by
      push_neg
      exact ⟨by linarith, by linarith⟩
    unfold rateRide
    rw [if_neg hnv, hfind]
    simp [hunrated, hdrv]
  · have h1 : rateRide [exRideA, exRideB, exRideC] [exDriver] 13 9 3 none =
        Except.ok ([exRideA, exRideB, { exRideC with riderRating := some 3 }],
          [{ exDriver with driverRating := toFixed1 (meanRiderRating
            [exRideA, exRideB, { exRideC with riderRating := some 3 }]) }]) := rfl
    have h2 : meanRiderRating
        [exRideA, exRideB, { exRideC with riderRating := some 3 }] = 4 := by
      norm_num [meanRiderRating, exRideA, exRideB, exRideC]
    have h3 : toFixed1 (4 : ℚ) = 4 := by
      norm_num [toFixed1, jsRound]
    rw [h1, h2, h3]

/-- Witness for claim C4 at the concrete scenario: the second rating attempt on
the already-rated ride 11 is rejected with the conflict error. -/
theorem rate_ride_spec_witness :
    (1 : ℚ) ≤ 2 ∧ (2 : ℚ) ≤ 5 ∧
    ([exRideA, exRideB, exRideC].find? (fun r =>
        decide (r.id = 11 ∧ r.userId = 9 ∧ r.status = RideStatus.completed))) = some exRideA ∧
    exRideA.riderRating ≠ none ∧
    rateRide [exRideA, exRideB, exRideC] [exDriver] 11 9 2 none =
      Except.error (ApiError.conflictError ("Ride already rated")) :=
  ⟨by norm_num, by norm_num,
    by simp [exRideA, List.find?],
    by simp [exRideA],
    rate_ride_spec.1 [exRideA, exRideB, exRideC] [exDriver] 11 9 2 none exRideA
      (by norm_num) (by norm_num) (by simp [exRideA, List.find?]) (by simp [exRideA])⟩

/-- The request body of POST /rides/order. JavaScript required-field checks are
truthiness tests, so an absent field is modelled by its falsy value (empty
string for text, zero for numbers). -/
structure OrderRequest where
  pickupLocation : String := ""
  pickupLat : ℚ := 0
  pickupLng : ℚ := 0
  destination : String := ""
  destLat : ℚ := 0
  destLng : ℚ := 0
  rideType : String := ""
  instructions : String := ""
  paymentMethod : String := ""
  phoneNumber : String := ""
  distance : ℚ := 0
  estimatedDuration : ℤ := 0
  baseFare : ℚ := 0
  distanceFare : ℚ := 0
  totalFare : ℚ := 0
deriving DecidableEq

/-- POST /rides/order (routes/rides.js lines 113 to 199): validate the required
fields by truthiness, validate the ride type against the tariff keys, then store
a new pending ride with the client-supplied estimate values (baseFare falls back
to the tariff base fare and distanceFare to zero when the body value is falsy);
every field the handler does not set keeps its schema default, so driverId and
all lifecycle timestamps are unset. -/
def createOrder (body : OrderRequest) (userId : Nat) (rideId : Nat) : Except ApiError Ride :=
  if body.pickupLocation = "" ∨ body.pickupLat = 0 ∨ body.pickupLng = 0 ∨
     body.destination = "" ∨ body.destLat = 0 ∨ body.destLng = 0 ∨
     body.rideType = "" ∨ body.paymentMethod = "" ∨ body.phoneNumber = "" ∨
     body.distance = 0 ∨ body.estimatedDuration = 0 ∨ body.totalFare = 0 then
    .error (ApiError.validationError ("Missing required fields"))
  else
    match parseRideType body.rideType with
    | none => .error (ApiError.validationError ("Invalid ride type"))
    | some t =>
      .ok { id := rideId
            userId := userId
            driverId := none
            status := RideStatus.pending
            pickupAddress := body.pickupLocation
            pickupLat := body.pickupLat
            pickupLng := body.pickupLng
            destinationAddress := body.destination
            destLat := body.destLat
            destLng := body.destLng
            rideType := t
            distance := body.distance
            estimatedDuration := body.estimatedDuration
            baseFare := if body.baseFare = 0 then ((PRICING_CONFIG t).baseFare : ℚ)
                        else body.baseFare
            distanceFare := if body.distanceFare = 0 then 0 else body.distanceFare
            totalFare := body.totalFare
            paymentMethod := body.paymentMethod
            paymentStatus := PaymentStatus.pending
            instructions := if body.instructions = "" then "" else body.instructions
            phoneNumber := body.phoneNumber
            riderRating := none
            feedbackRider := none
            acceptedAt := none
            arrivedAt := none
            startedAt := none
            completedAt := none
            cancelledAt := none }

/-- Claim C8: whenever order validation passes (all required fields truthy, a
recognized ride type, and a truthy client baseFare, as every estimate produces),
the created ride is pending with driverId and all five lifecycle timestamps
unset, and its distance, estimatedDuration, baseFare, distanceFare and
totalFare are exactly the client-supplied body values — nothing is recomputed
from the coordinates. -/
theorem order_persists_estimate (body : OrderRequest) (userId rideId : Nat) (t : RideType)
    (hvalid : ¬(body.pickupLocation = "" ∨ body.pickupLat = 0 ∨ body.pickupLng = 0 ∨
      body.destination = "" ∨ body.destLat = 0 ∨ body.destLng = 0 ∨
      body.rideType = "" ∨ body.paymentMethod = "" ∨ body.phoneNumber = "" ∨
      body.distance = 0 ∨ body.estimatedDuration = 0 ∨ body.totalFare = 0))
    (ht : parseRideType body.rideType = some t)
    (hbase : body.baseFare ≠ 0) :
    createOrder body userId rideId =
      Except.ok { id := rideId
                  userId := userId
                  driverId := none
                  status := RideStatus.pending
                  pickupAddress := body.pickupLocation
                  pickupLat := body.pickupLat
                  pickupLng := body.pickupLng
                  destinationAddress := body.destination
                  destLat := body.destLat
                  destLng := body.destLng
                  rideType := t
                  distance := body.distance
                  estimatedDuration := body.estimatedDuration
                  baseFare := body.baseFare
                  distanceFare := body.distanceFare
                  totalFare := body.totalFare
                  paymentMethod := body.paymentMethod
                  paymentStatus := PaymentStatus.pending
                  instructions := if body.instructions = "" then "" else body.instructions
                  phoneNumber := body.phoneNumber
                  riderRating := none
                  feedbackRider := none
                  acceptedAt := none
                  arrivedAt := none
                  startedAt := none
                  completedAt := none
                  cancelledAt := none } := by
  unfold createOrder
  simp only [if_neg hvalid, ht]
  rw [if_neg hbase]
  by_cases hdf : body.distanceFare = 0
  · rw [if_pos hdf, hdf]
  · rw [if_neg hdf]

/-- A fully populated order body matching the car estimate at 10 km. -/
def exOrderBody : OrderRequest :=
  { pickupLocation := "A", pickupLat := 6, pickupLng := 3,
    destination := "B", destLat := 7, destLng := 4,
    rideType := "car", instructions := "", paymentMethod := "cash",
    phoneNumber := "080", distance := 10, estimatedDuration := 20,
    baseFare := 500, distanceFare := 1500, totalFare := 2640 }

/-- Witness for claim C8 at the concrete order body. -/
theorem order_persists_estimate_witness :
    parseRideType exOrderBody.rideType = some RideType.car ∧
    exOrderBody.baseFare ≠ 0 ∧
    createOrder exOrderBody 9 21 =
      Except.ok { id := 21
                  userId := 9
                  status := RideStatus.pending
                  pickupAddress := "A"
                  pickupLat := 6
                  pickupLng := 3
                  destinationAddress := "B"
                  destLat := 7
                  destLng := 4
                  rideType := RideType.car
                  distance := 10
                  estimatedDuration := 20
                  baseFare := 500
                  distanceFare := 1500
                  totalFare := 2640
                  paymentMethod := "cash"
                  phoneNumber := "080" } :=
  ⟨rfl, by decide,
    order_persists_estimate exOrderBody 9 21 RideType.car
      (by decide) rfl (by decide)⟩

/-- The status filter array of GET /rides/active (routes/rides.js line 277).
The entry arrived is not a value of the Ride status enumeration, and
awaiting_driver_confirmation and picked_up are absent. -/
def activeStatusStrings : List String :=
  ["pending", "searching", "accepted", "arrived", "in_progress"]

/-- GET /rides/active (routes/rides.js lines 273 to 305): the first stored ride
owned by the requester whose status string is in the active filter array, or
none. -/
def findActiveRide (rides : List Ride) (userId : Nat) : Option Ride :=
  rides.find? (fun r =>
    r.userId == userId && activeStatusStrings.contains (statusToString r.status))

/-- Claim C10: the active-ride query matches only the five listed status
strings — of the real statuses only pending, searching, accepted and
in_progress, since arrived is not a ride status — so a rider whose rides are
all in awaiting_driver_confirmation or picked_up gets null even though those
are non-terminal. -/
theorem active_query_statuses :
    (∀ (rides : List Ride) (uid : Nat) (r : Ride), findActiveRide rides uid = some r →
      r.userId = uid ∧ statusToString r.status ∈ activeStatusStrings) ∧
    (∀ st : RideStatus, statusToString st ∈ activeStatusStrings ↔
      (st = RideStatus.pending ∨ st = RideStatus.searching ∨
       st = RideStatus.accepted ∨ st = RideStatus.in_progress)) ∧
    (∀ (rides : List Ride) (uid : Nat),
      (∀ r ∈ rides, r.status = RideStatus.awaiting_driver_confirmation ∨
        r.status = RideStatus.picked_up) →
      findActiveRide rides uid = none) := by
  refine ⟨?_, ?_, ?_⟩
  · intro rides uid r hfind
    have hp := List.find?_some hfind
    simp only [Bool.and_eq_true, beq_iff_eq] at hp
    exact ⟨hp.1, by simpa using hp.2⟩
  · intro st
    cases st <;> decide
  · intro rides uid h
    have hc1 : activeStatusStrings.contains
        (statusToString RideStatus.awaiting_driver_confirmation) = false := rfl
    have hc2 : activeStatusStrings.contains
        (statusToString RideStatus.picked_up) = false := rfl
    induction rides with
    | nil => rfl
    | cons a l ih =>
      have ha := h a (List.mem_cons_self a l)
      have hl := fun r hr => h r (List.mem_cons_of_mem a hr)
      have hpred : ¬((fun r : Ride => r.userId == uid &&
          activeStatusStrings.contains (statusToString r.status)) a = true) := by
        rcases ha with h1 | h1
        · simp only [h1, Bool.and_eq_true]
          intro hcontra
          rw [hc1] at hcontra
          exact Bool.false_ne_true hcontra.2
        · simp only [h1, Bool.and_eq_true]
          intro hcontra
          rw [hc2] at hcontra
          exact Bool.false_ne_true hcontra.2
      unfold findActiveRide
      rw [List.find?_cons_of_neg l hpred]
      exact ih hl

/-- A ride in picked_up status owned by user 9. -/
def exPickedUpRide : Ride :=
  { id := 22, userId := 9, driverId := some 4, status := .picked_up }

/-- Witness for claim C10: the only ride of user 9 is picked_up, a non-terminal
status, yet the active-ride query returns none. -/
theorem active_query_statuses_witness :
    (∀ r ∈ [exPickedUpRide], r.status = RideStatus.awaiting_driver_confirmation ∨
      r.status = RideStatus.picked_up) ∧
    findActiveRide [exPickedUpRide] 9 = none :=
  ⟨by decide,
    active_query_statuses.2.2 [exPickedUpRide] 9 (by decide)⟩

open scoped Classical in
/-- Math.atan2(y, x) of JavaScript on the real numbers: the angle of the point
(x, y), by the usual quadrant case split. -/
noncomputable def atan2 (y x : ℝ) : ℝ :=
  if 0 < x then Real.arctan (y / x)
  else if x < 0 ∧ 0 ≤ y then Real.arctan (y / x) + Real.pi
  else if x < 0 ∧ y < 0 then Real.arctan (y / x) - Real.pi
  else if x = 0 ∧ 0 < y then Real.pi / 2
  else if x = 0 ∧ y < 0 then -(Real.pi / 2)
  else 0

/-- The intermediate value a of calculateDistance (routes/rides.js lines 37
to 40): the haversine of the latitude difference plus the product of the
cosines of the latitudes and the haversine of the longitude difference, with
all angles converted from degrees to radians. -/
noncomputable def haversineA (lat1 lon1 lat2 lon2 : ℝ) : ℝ :=
  Real.sin ((lat2 - lat1) * Real.pi / 180 / 2) * Real.sin ((lat2 - lat1) * Real.pi / 180 / 2) +
  Real.cos (lat1 * Real.pi / 180) * Real.cos (lat2 * Real.pi / 180) *
  (Real.sin ((lon2 - lon1) * Real.pi / 180 / 2) * Real.sin ((lon2 - lon1) * Real.pi / 180 / 2))

/-- calculateDistance of routes/rides.js (lines 33 to 43): great-circle
distance with Earth radius 6371 km, c = 2 * atan2(sqrt(a), sqrt(1 - a)). -/
noncomputable def calculateDistance (lat1 lon1 lat2 lon2 : ℝ) : ℝ :=
  6371 * (2 * atan2 (Real.sqrt (haversineA lat1 lon1 lat2 lon2))
    (Real.sqrt (1 - haversineA lat1 lon1 lat2 lon2)))

/-- Claim C7: the haversine distance of the source is symmetric in its two
points, and the distance from any point to itself is zero. -/
theorem calculateDistance_symm_self :
    (∀ lat1 lon1 lat2 lon2 : ℝ,
      calculateDistance lat1 lon1 lat2 lon2 = calculateDistance lat2 lon2 lat1 lon1) ∧
    (∀ lat lon : ℝ, calculateDistance lat lon lat lon = 0) := by
  have hsq : ∀ x y : ℝ,
      Real.sin ((x - y) * Real.pi / 180 / 2) * Real.sin ((x - y) * Real.pi / 180 / 2) =
      Real.sin ((y - x) * Real.pi / 180 / 2) * Real.sin ((y - x) * Real.pi / 180 / 2) := by
    intro x y
    have h : (x - y) * Real.pi / 180 / 2 = -((y - x) * Real.pi / 180 / 2) := by ring
    rw [h, Real.sin_neg]
    ring
  have hA : ∀ lat1 lon1 lat2 lon2 : ℝ,
      haversineA lat1 lon1 lat2 lon2 = haversineA lat2 lon2 lat1 lon1 := by
    intro lat1 lon1 lat2 lon2
    unfold haversineA
    rw [hsq lat2 lat1, hsq lon2 lon1]
    ring
  constructor
  · intro lat1 lon1 lat2 lon2
    unfold calculateDistance
    rw [hA lat1 lon1 lat2 lon2]
  · intro lat lon
    have hzero : haversineA lat lon lat lon = 0 := by
      unfold haversineA
      simp
    unfold calculateDistance
    rw [hzero, sub_zero, Real.sqrt_zero, Real.sqrt_one]
    unfold atan2
    rw [if_pos (by norm_num : (0 : ℝ) < 1)]
    simp

/-- The vehicleId populate step of the available-drivers queries: resolve the
vehicle reference of the driver in the vehicle collection, when one is present. -/
def populateVehicle (vehicles : List Vehicle) (d : DriverDetail) : Option Vehicle :=
  d.vehicleId.bind (fun vid => vehicles.find? (fun v => v.id == vid))

/-- GET /rides/:id/available-drivers (routes/rides.js lines 352 to 412),
applied to the ride found by id, owner and searching status (a ride in any
other status is a 404 by the findOne filter). For a bicycle ride the query
returns active, verified drivers with no vehicle assigned, capped at 10 by the
query-level limit. For a motorcycle or car ride the source chains
then(filter).limit(10): the then call executes the query and yields a promise,
a promise has no limit method, so evaluating the chain raises a TypeError that
the surrounding catch maps to the 500 response — no driver list is ever
produced on this branch. -/
def availableDrivers (ride : Ride) (drivers : List DriverDetail) (vehicles : List Vehicle) :
    Except ApiError (List DriverDetail) :=
  if ride.status ≠ RideStatus.searching then
    .error (ApiError.notFoundError ("Ride not found or not searching for drivers"))
  else if ride.rideType = RideType.bicycle then
    .ok ((drivers.filter (fun d =>
      d.vehicleId == none && d.status == "active" && d.isVerified)).take 10)
  else
    .error (ApiError.internalError ("Server error fetching available drivers"))

/-- A car-category ride in searching status owned by user 9. -/
def exSearchingCarRide : Ride :=
  { id := 31, userId := 9, status := .searching, rideType := .car }

/-- An active verified driver with a sedan assigned. -/
def exCarDriver : DriverDetail :=
  { id := 6, userId := 8, vehicleId := some 41, status := "active", isVerified := true }

/-- A sedan vehicle. -/
def exSedan : Vehicle := { id := 41, vehicleType := "sedan" }

/-- Claim C9 failing input evaluated: a searching car ride with an eligible
sedan driver present yields the 500 server error, not a candidate list — the
non-bicycle branch always fails — while the bicycle branch does return the
filtered, capped candidate list. -/
theorem available_drivers_car_crashes :
    availableDrivers exSearchingCarRide [exCarDriver] [exSedan] =
      Except.error (ApiError.internalError ("Server error fetching available drivers")) ∧
    (∀ (ride : Ride) (drivers : List DriverDetail) (vehicles : List Vehicle),
      ride.status = RideStatus.searching → ride.rideType = RideType.bicycle →
      availableDrivers ride drivers vehicles =
        Except.ok ((drivers.filter (fun d =>
          d.vehicleId == none && d.status == "active" && d.isVerified)).take 10)) := by
  constructor
  · rfl
  · intro ride drivers vehicles hs hb
    simp [availableDrivers, hs, hb]

/-- Witness for the bicycle conjunct of the claim C9 evaluation, at a concrete
searching bicycle ride with one eligible and one ineligible driver. -/
theorem available_drivers_car_crashes_witness :
    ({ id := 32, userId := 9, status := .searching, rideType := .bicycle } : Ride).status =
      RideStatus.searching ∧
    ({ id := 32, userId := 9, status := .searching, rideType := .bicycle } : Ride).rideType =
      RideType.bicycle ∧
    availableDrivers { id := 32, userId := 9, status := .searching, rideType := .bicycle }
        [{ id := 7, userId := 3, status := "active", isVerified := true }, exCarDriver] [] =
      Except.ok [{ id := 7, userId := 3, status := "active", isVerified := true }] :=
  ⟨rfl, rfl,
    available_drivers_car_crashes.2
      { id := 32, userId := 9, status := .searching, rideType := .bicycle }
      [{ id := 7, userId := 3, status := "active", isVerified := true }, exCarDriver] []
      rfl rfl⟩

end ItproRides
